import Mathlib

/-!
Shallow embedding of the multicast (S,G) flow-status collectors of
`netpaca-multicast` (src/netpaca_multicast/mcast_sg/eapi.py and nxapi.py).

Python values that may be absent (missing dict keys, `findtext` returning
`None`) are modelled as `Option`; a Python exception raised during
per-record processing (KeyError on a missing dict key, AttributeError on
`None.startswith` / `None.group`, TypeError on `re.match(None)`) is
modelled as `Except.error ()`.

The Python string primitives used by the source (`str.startswith`,
substring membership `in` for a one-character needle, `str.join`,
`str.strip`, `str.split`) are embedded as structurally recursive functions
over `List Char` so that every definition evaluates by kernel reduction.
-/

/-- Whether `pat` is a leading segment of `l`. -/
def listStartsWith : List Char → List Char → Bool
  | [], _ => true
  | _ :: _, [] => false
  | p :: ps, c :: cs => p == c && listStartsWith ps cs

/-- Python `s.startswith(pre)`. -/
def pyStartsWith (s pre : String) : Bool := listStartsWith pre.data s.data

/-- Python `c in s` for a one-character needle `c`. -/
def pyContainsChar (s : String) (c : Char) : Bool := s.data.contains c

/-- Python `sep.join(xs)`. -/
def pyJoin (sep : String) : List String → String
  | [] => ""
  | [x] => x
  | x :: y :: rest => x ++ sep ++ pyJoin sep (y :: rest)

/-- Split a character list on a separator character; the result always has
one part more than the number of separators, so splitting the empty list
gives one empty part. -/
def splitOnCh (sep : Char) : List Char → List (List Char)
  | [] => [[]]
  | c :: cs =>
    if c = sep then [] :: splitOnCh sep cs
    else match splitOnCh sep cs with
      | [] => [[c]]
      | l :: ls => (c :: l) :: ls

/-- Python `s.strip()` on a character list: drop whitespace from both ends. -/
def trimChars (l : List Char) : List Char :=
  ((l.dropWhile Char.isWhitespace).reverse.dropWhile Char.isWhitespace).reverse

/-- The emitted metric (`mcast_sg.McastSGStatus`): a status value, a tag
dictionary (tag values are Python strings or `None`, hence `Option String`),
and the caller-supplied timestamp. Tags keep their insertion order. -/
structure Metric where
  value : Nat
  tags : List (String × Option String)
  ts : Nat
deriving DecidableEq, Repr

/-- A Python list comprehension whose element expression may raise: elements
are produced left to right and the first exception propagates. -/
def exceptMap (f : α → Except Unit β) : List α → Except Unit (List β)
  | [] => Except.ok []
  | x :: xs =>
    match f x with
    | Except.error e => Except.error e
    | Except.ok y =>
      match exceptMap f xs with
      | Except.error e => Except.error e
      | Except.ok ys => Except.ok (y :: ys)

/-- Look up a tag value by key in a metric's tag list (first binding; the
tag lists built below have distinct keys). -/
def lookupTag (k : String) (tags : List (String × Option String)) : Option (Option String) :=
  (tags.find? (fun p => p.1 == k)).map (fun p => p.2)

namespace eapi

/-- One `groupSources` entry of the EOS `show ip mroute` JSON output: a dict
whose keys may in principle be absent, accessed as `flow_data['routeFlags']`,
`flow_data['rpfInterface']`, `flow_data['oifList']`. -/
structure EosFlowData where
  routeFlags : Option String
  rpfInterface : Option String
  oifList : Option (List String)
deriving DecidableEq, Repr

/-- One value of the `groups` mapping: its `groupSources` dict, as an
association list keyed by source address. -/
structure EosGroupData where
  groupSources : List (String × EosFlowData)
deriving DecidableEq, Repr

/-- The EOS `show ip mroute` output tree: its `groups` dict, as an
association list keyed by group address. -/
structure EosTree where
  groups : List (String × EosGroupData)
deriving DecidableEq, Repr

/-- Embedding of `_mcast_sg_status` (eapi.py): first match wins among
flags starting with `S` (0 when the oif list is truthy i.e. non-empty,
else 1), flags starting with `J` (2), default 1. The dict accesses
`mcast_flow['routeFlags']` and `mcast_flow['oifList']` raise on a missing
key. -/
def mcast_sg_status (mcast_flow : EosFlowData) : Except Unit Nat :=
  match mcast_flow.routeFlags with
  | none => Except.error ()
  | some flags =>
    if pyStartsWith flags "S" then
      match mcast_flow.oifList with
      | none => Except.error ()
      | some oifs => Except.ok (if oifs.isEmpty then 1 else 0)
    else if pyStartsWith flags "J" then Except.ok 2
    else Except.ok 1

/-- Embedding of `_find_mcast_sg_flows` (eapi.py): for each group, for each
source with address different from `0.0.0.0`, yield (source, group, data). -/
def find_mcast_sg_flows (cli_data : EosTree) : List (String × String × EosFlowData) :=
  cli_data.groups.flatMap (fun gp =>
    (gp.2.groupSources.filter (fun sp => sp.1 != "0.0.0.0")).map
      (fun sp => (sp.1, gp.1, sp.2)))

/-- The tag dictionary built for one EOS flow inside `get_mcast_flow_metrics`
(eapi.py): keys in source order, `oif_list` joined with `,`. -/
def buildEosTags (s g flags rpf : String) (oifs : List String) : List (String × Option String) :=
  [("S", some s), ("G", some g), ("flags", some flags),
   ("rpf_if_name", some rpf), ("oif_list", some (pyJoin "," oifs))]

/-- One element of the metric list comprehension in `get_mcast_flow_metrics`
(eapi.py): the status is computed first (keyword `value=` is evaluated before
`tags=`), then each tag value is read from the flow dict. -/
def metricOf (ts : Nat) (s g : String) (fd : EosFlowData) : Except Unit Metric :=
  match mcast_sg_status fd with
  | Except.error e => Except.error e
  | Except.ok status =>
    match fd.routeFlags, fd.rpfInterface, fd.oifList with
    | some flags, some rpf, some oifs =>
      Except.ok { value := status, tags := buildEosTags s g flags rpf oifs, ts := ts }
    | _, _, _ => Except.error ()

/-- The metric-list construction of `get_mcast_flow_metrics` (eapi.py),
after a successful `show ip mroute` call. -/
def get_mcast_flow_metrics (ts : Nat) (cli : EosTree) : Except Unit (List Metric) :=
  exceptMap (fun r => metricOf ts r.1 r.2.1 r.2.2) (find_mcast_sg_flows cli)

end eapi

namespace nxapi

/-- One `ROW_one_route` XML node of `show ip mroute source-tree detail`
(nxapi.py): the fields read through `findtext` (which returns `None` when
the element is absent, hence `Option String`) and the `oif-name` node list
selected by the `TABLE_oif/ROW_oif/oif-name/text()` xpath (possibly empty,
never failing). -/
structure NxRow where
  pending : Option String
  statsRateBuf : Option String
  mcastAddrs : Option String
  routeIif : Option String
  oifNames : List String
deriving DecidableEq, Repr

/-- All splits (pre, suf) of a character list with `pre ++ suf` the list,
ordered by increasing length of `pre`. -/
def allSplitsAsc : List Char → List (List Char × List Char)
  | [] => [([], [])]
  | c :: cs => ([], c :: cs) :: (allSplitsAsc cs).map (fun p => (c :: p.1, p.2))

/-- The candidate captures of a greedy one-or-more atom (`.+` or a digit
class) at the head of a character list: the non-empty all-`ok` prefixes,
longest first, exactly the order a backtracking regex engine tries them. -/
def candsDesc (ok : Char → Bool) (cs : List Char) : List (List Char × List Char) :=
  ((allSplitsAsc cs).filter (fun p => !p.1.isEmpty && p.1.all ok)).reverse

/-- First defined value in a list of alternatives, in order. -/
def firstSome : List (Option α) → Option α
  | [] => none
  | o :: os => match o with
    | some a => some a
    | none => firstSome os

/-- Tail of the pattern after the G capture: a literal `/`, a greedy digit
run, then a literal `)`; `re.match` leaves the remainder unconstrained. -/
def matchGTail (g : List Char) (l : List Char) : Option (List Char) :=
  match l with
  | [] => none
  | c :: r2 =>
    if c = '/' then
      firstSome ((candsDesc Char.isDigit r2).map (fun p =>
        match p.2 with
        | [] => none
        | c2 :: _ => if c2 = ')' then some g else none))
    else none

/-- Tail of the pattern after the S capture: a literal `/`, a greedy digit
run, the literal `, `, then the greedy G capture (`.+`, any characters but
newline) followed by `matchGTail`. -/
def matchAfterS (l : List Char) : Option (List Char) :=
  match l with
  | [] => none
  | c :: r2 =>
    if c = '/' then
      firstSome ((candsDesc Char.isDigit r2).map (fun p =>
        match p.2 with
        | c2 :: c3 :: r4 =>
          if c2 = ',' then
            if c3 = ' ' then
              firstSome ((candsDesc (fun ch => ch != '\n') r4).map
                (fun q => matchGTail q.1 q.2))
            else none
          else none
        | _ => none))
    else none

/-- Backtracking matcher for the compiled pattern of `_re_extracto_S_G`
applied from position 0 (`.match`): a literal `(`, the greedy S capture
(`.+`), then `matchAfterS`; returns the (S, G) captures of the first match
in backtracking order, `none` when the pattern does not match. -/
def extractoCore (l : List Char) : Option (String × String) :=
  match l with
  | [] => none
  | c :: rest =>
    if c = '(' then
      firstSome ((candsDesc (fun ch => ch != '\n') rest).map (fun p =>
        (matchAfterS p.2).map (fun g => (String.mk p.1, String.mk g))))
    else none

/-- Embedding of `_re_extracto_S_G` (nxapi.py): the anchored-at-start match
of `\((?P<S>.+)/\d+, (?P<G>.+)/\d+\)` returning the named captures. -/
def re_extracto_S_G (s : String) : Option (String × String) := extractoCore s.data

/-- Python `dict.get(key, "")` on the FDMR mapping, modelled on an
association list in insertion order (a duplicated key overwrites, so the
last binding wins). -/
def dictGet (m : List ((String × String) × String)) (k : String × String) : String :=
  match m.reverse.find? (fun p => p.1.1 == k.1 && p.1.2 == k.2) with
  | some p => p.2
  | none => ""

/-- Embedding of `_form_sg_status` (nxapi.py): `pending == "true"` gives 2
(`findtext` returning `None` compares unequal, so a missing field falls
through); flags containing `O` or `D` give 2; otherwise the rate-buffer
text decides 1 (prefix `"0.000 "`) versus 0 — and a missing rate-buffer
text means `None.startswith`, an AttributeError. -/
def form_sg_status (xml_sg_rec : NxRow) (flags : String) : Except Unit Nat :=
  if xml_sg_rec.pending = some "true" then Except.ok 2
  else if pyContainsChar flags 'O' || pyContainsChar flags 'D' then Except.ok 2
  else match xml_sg_rec.statsRateBuf with
    | some rb => Except.ok (if pyStartsWith rb "0.000 " then 1 else 0)
    | none => Except.error ()

/-- The tag dictionary built inside `_make_metric` (nxapi.py): keys in
source order, `oif_count` the decimal string of the oif-list length,
`oif_list` joined with `,`; `rpf_if_name` is the raw `findtext` result
(possibly `None`). -/
def buildNxTags (s g : String) (rpf : Option String) (flags : String)
    (oifs : List String) : List (String × Option String) :=
  [("S", some s), ("G", some g), ("rpf_if_name", rpf), ("flags", some flags),
   ("oif_count", some (toString oifs.length)),
   ("oif_list", some (pyJoin "," oifs))]

/-- Embedding of `_make_metric` (nxapi.py): extract S and G from the
`mcast-addrs` text with `_re_extracto_S_G` (a missing text is
`re.match(None)`, a TypeError; a failed match makes `mo.group` an
AttributeError on `None`), look the flags up in the FDMR mapping with
default `""`, classify, and build the metric. -/
def make_metric (ts : Nat) (xml_sg_rec : NxRow)
    (fdmr_data : List ((String × String) × String)) : Except Unit Metric :=
  match xml_sg_rec.mcastAddrs with
  | none => Except.error ()
  | some addrs =>
    match re_extracto_S_G addrs with
    | none => Except.error ()
    | some sg =>
      let mcast_flags := dictGet fdmr_data (sg.1, sg.2)
      match form_sg_status xml_sg_rec mcast_flags with
      | Except.error e => Except.error e
      | Except.ok status =>
        Except.ok { value := status,
                    tags := buildNxTags sg.1 sg.2 xml_sg_rec.routeIif mcast_flags
                      xml_sg_rec.oifNames,
                    ts := ts }

/-- The metric-list construction of `get_mcast_flow_metrics` (nxapi.py),
after both device calls succeeded: one `_make_metric` per `ROW_one_route`
node of the XML document. -/
def get_mcast_flow_metrics (ts : Nat) (rows : List NxRow)
    (fdmr_data : List ((String × String) × String)) : Except Unit (List Metric) :=
  exceptMap (fun r => make_metric ts r fdmr_data) rows

/-- Decimal digits read as a number (for IPv4 octet bounds). -/
def digitsToNat (l : List Char) : Nat := l.foldl (fun n c => n * 10 + (c.toNat - 48)) 0

/-- Whether a character list is a decimal IPv4 octet: non-empty, all
digits, value at most 255. -/
def isOctet (l : List Char) : Bool :=
  !l.isEmpty && l.all Char.isDigit && digitsToNat l ≤ 255

/-- Whether a character list is a dotted-quad IPv4 address. -/
def isIPv4 (l : List Char) : Bool :=
  let parts := splitOnCh '.' l
  parts.length == 4 && parts.all isOctet

/-- Split a character list at the first occurrence of `pat`, returning the
part before it and the part after it. -/
def splitOnceL (pat : List Char) : List Char → Option (List Char × List Char)
  | [] => if pat.isEmpty then some ([], []) else none
  | c :: cs =>
    if listStartsWith pat (c :: cs) then some ([], (c :: cs).drop pat.length)
    else match splitOnceL pat cs with
      | some p => some (c :: p.1, p.2)
      | none => none

/-- Modelled from the spec: the `ttp` template engine (an external library
whose code is not part of this repository) applied to one line of FDMR
text with the template of `_CLI_FDMR_TEMPLATE` — a block of the form
`(S/32, G/32), RPF Interface: <if>, flags: <flags>` where S and G must be
IP addresses (the template's `IP` filter) and the RPF-interface field is
matched but discarded (the template's `ignore`). Returns the captured
(source, group, flags) or `none` when the line does not match. -/
def parseFdmrLine (line : List Char) : Option (String × String × String) := do
  let t := trimChars line
  let r1 ← match t with
    | '(' :: rest => some rest
    | _ => none
  let sp ← splitOnceL "/32, ".data r1
  let gp ← splitOnceL "/32), RPF Interface: ".data sp.2
  let fp ← splitOnceL ", flags: ".data gp.2
  if isIPv4 sp.1 && isIPv4 gp.1 then
    some (String.mk sp.1, String.mk gp.1, String.mk fp.2)
  else none

/-- Embedding of `_parse_show_fdmr` (nxapi.py), its `ttp` engine modelled
from the spec: every matching line contributes one
`(source, group) ↦ flags` binding; empty or unparseable text yields the
empty mapping rather than an error. -/
def parse_show_fdmr (cli_text : String) : List ((String × String) × String) :=
  ((splitOnCh '\n' cli_text.data).filterMap parseFdmrLine).map
    (fun r => ((r.1, r.2.1), r.2.2))

end nxapi

/-- C1: the EOS status classifier evaluates its rules in order with first
match winning — flags starting with `S` give 0 for a non-empty oif list
and 1 for an empty one, otherwise flags starting with `J` give 2,
otherwise (e.g. `""` or `"KM"`) the result is 1. -/
theorem C1_eos_status_classifier (fd : eapi.EosFlowData) (f : String) (l : List String)
    (hf : fd.routeFlags = some f) (hl : fd.oifList = some l) :
    eapi.mcast_sg_status fd =
      Except.ok (if pyStartsWith f "S" then (if l.isEmpty then 1 else 0)
        else if pyStartsWith f "J" then 2 else 1) := by
  simp only [eapi.mcast_sg_status, hf, hl]
  by_cases hS : pyStartsWith f "S"
  · simp [hS]
  · by_cases hJ : pyStartsWith f "J" <;> simp [hS, hJ]

/-- Witness for C1 at a concrete flow: flags `"KM"` start with neither `S`
nor `J`, so the status is 1. -/
theorem C1_eos_status_classifier_w :
    eapi.mcast_sg_status ⟨some "KM", some "Eth1", some []⟩ = Except.ok 1 := by
  rw [C1_eos_status_classifier ⟨some "KM", some "Eth1", some []⟩ "KM" [] rfl rfl]
  rfl

/-- C2: the NX-OS flags-aware classifier returns 2 when `pending` equals
`"true"` regardless of flags, else 2 when the flags contain `O` or `D`,
else 1 when the rate-buffer text starts with `"0.000 "` and 0 when it
does not. -/
theorem C2_nx_status_classifier (rec : nxapi.NxRow) (flags rb : String)
    (hrb : rec.statsRateBuf = some rb) :
    nxapi.form_sg_status rec flags =
      Except.ok (if rec.pending = some "true" then 2
        else if pyContainsChar flags 'O' || pyContainsChar flags 'D' then 2
        else if pyStartsWith rb "0.000 " then 1 else 0) := by
  simp only [nxapi.form_sg_status, hrb]
  by_cases h1 : rec.pending = some "true" <;>
    by_cases h2 : pyContainsChar flags 'O' || pyContainsChar flags 'D' <;>
      simp [h1, h2]

/-- Witness for C2 at a concrete row: `pending` not `"true"`, empty flags,
zero rate, hence status 1. -/
theorem C2_nx_status_classifier_w :
    nxapi.form_sg_status ⟨some "false", some "0.000 pps", none, none, []⟩ "" =
      Except.ok 1 := by
  rw [C2_nx_status_classifier ⟨some "false", some "0.000 pps", none, none, []⟩ "" "0.000 pps" rfl]
  rfl

/-- C3 counterexample: two concrete flow records with a missing
classifier-relevant field on which the classifier raises (modelled
`Except.error ()`) instead of falling through to a status code — the
NX-OS row without rate-buffer text hits `None.startswith` and the EOS
flow without `routeFlags` hits a KeyError. -/
theorem C3_missing_fields_cex :
    nxapi.form_sg_status ⟨none, none, none, none, []⟩ "" = Except.error () ∧
    eapi.mcast_sg_status ⟨none, some "Eth1", some ["Eth2"]⟩ = Except.error () :=
  ⟨rfl, rfl⟩

/-- C3 amended: only a missing NX-OS `pending` field is treated as
non-matching (it falls through to the later rules); a missing NX-OS
rate-buffer text, a missing EOS `routeFlags` field, and a missing EOS
`oifList` field reached under flags starting with `S` all raise instead
of falling through. -/
theorem C3_missing_fields_amended :
    (∀ (rec : nxapi.NxRow) (flags rb : String), rec.pending = none →
      rec.statsRateBuf = some rb →
      nxapi.form_sg_status rec flags =
        Except.ok (if pyContainsChar flags 'O' || pyContainsChar flags 'D' then 2
          else if pyStartsWith rb "0.000 " then 1 else 0)) ∧
    (∀ (rec : nxapi.NxRow) (flags : String), rec.statsRateBuf = none →
      rec.pending ≠ some "true" →
      pyContainsChar flags 'O' = false → pyContainsChar flags 'D' = false →
      nxapi.form_sg_status rec flags = Except.error ()) ∧
    (∀ fd : eapi.EosFlowData, fd.routeFlags = none →
      eapi.mcast_sg_status fd = Except.error ()) ∧
    (∀ (fd : eapi.EosFlowData) (f : String), fd.routeFlags = some f →
      pyStartsWith f "S" = true → fd.oifList = none →
      eapi.mcast_sg_status fd = Except.error ()) := by
  refine ⟨?_, ?_, ?_, ?_⟩
  · intro rec flags rb h1 h2
    simp only [nxapi.form_sg_status, h1, h2]
    by_cases h3 : pyContainsChar flags 'O' <;>
      by_cases h4 : pyContainsChar flags 'D' <;> simp [h3, h4]
  · intro rec flags h1 h2 h3 h4
    simp [nxapi.form_sg_status, h1, h2, h3, h4]
  · intro fd h
    simp [eapi.mcast_sg_status, h]
  · intro fd f h1 h2 h3
    simp [eapi.mcast_sg_status, h1, h2, h3]

/-- Witness for the amended C3: a concrete NX-OS row with `pending` absent
falls through to the rate rule and yields status 1. -/
theorem C3_missing_fields_amended_w :
    nxapi.form_sg_status ⟨none, some "0.000 pps", none, none, []⟩ "" = Except.ok 1 := by
  rw [C3_missing_fields_amended.1 ⟨none, some "0.000 pps", none, none, []⟩ "" "0.000 pps" rfl rfl]
  rfl

/-- C4: when an NX-OS row's combined (S,G) address text does not match the
extraction regex, `_make_metric` propagates a failure for that record
(`mo.group` on `None` raises) rather than silently skipping it. -/
theorem C4_regex_failure_fatal (ts : Nat) (rec : nxapi.NxRow)
    (fdmr : List ((String × String) × String)) (a : String)
    (ha : rec.mcastAddrs = some a) (hm : nxapi.re_extracto_S_G a = none) :
    nxapi.make_metric ts rec fdmr = Except.error () := by
  simp [nxapi.make_metric, ha, hm]

/-- Witness for C4: a concrete row whose address text lacks the
parentheses makes `_make_metric` fail. -/
theorem C4_regex_failure_fatal_w :
    nxapi.make_metric 0 ⟨none, none, some "1.2.3.4/32, 5.6.7.8/32", none, []⟩ [] =
      Except.error () :=
  C4_regex_failure_fatal 0 ⟨none, none, some "1.2.3.4/32, 5.6.7.8/32", none, []⟩ []
    "1.2.3.4/32, 5.6.7.8/32" rfl rfl

/-- Inversion for `exceptMap`: every element of a successful result is the
successful image of some input element. -/
theorem exceptMap_ok_mem {α β : Type} {f : α → Except Unit β} :
    ∀ {l : List α} {out : List β}, exceptMap f l = Except.ok out →
      ∀ y ∈ out, ∃ x ∈ l, f x = Except.ok y := by
  intro l
  induction l with
  | nil =>
    intro out h y hy
    simp only [exceptMap] at h
    cases h
    simp at hy
  | cons x xs ih =>
    intro out h y hy
    simp only [exceptMap] at h
    cases hfx : f x with
    | error e => simp [hfx] at h
    | ok b =>
      cases hrest : exceptMap f xs with
      | error e => simp [hfx, hrest] at h
      | ok bs =>
        simp only [hfx, hrest] at h
        cases h
        rcases List.mem_cons.mp hy with h1 | h2
        · exact ⟨x, List.mem_cons_self x xs, h1 ▸ hfx⟩
        · obtain ⟨x', hx', hfx'⟩ := ih hrest y h2
          exact ⟨x', List.mem_cons_of_mem x hx', hfx'⟩

/-- Inversion for the EOS per-flow metric construction: a successful metric
has the tag dictionary built by `buildEosTags` from the flow's fields, the
classifier's status as value, and the given timestamp. -/
theorem metricOf_ok_shape {ts : Nat} {s g : String} {fd : eapi.EosFlowData} {m : Metric}
    (h : eapi.metricOf ts s g fd = Except.ok m) :
    ∃ status flags rpf oifs,
      m = { value := status, tags := eapi.buildEosTags s g flags rpf oifs, ts := ts } := by
  unfold eapi.metricOf at h
  cases hst : eapi.mcast_sg_status fd with
  | error e => simp [hst] at h
  | ok status =>
    cases hf : fd.routeFlags with
    | none => simp [hst, hf] at h
    | some flags =>
      cases hrp : fd.rpfInterface with
      | none => simp [hst, hf, hrp] at h
      | some rpf =>
        cases ho : fd.oifList with
        | none => simp [hst, hf, hrp, ho] at h
        | some oifs =>
          simp only [hst, hf, hrp, ho] at h
          cases h
          exact ⟨status, flags, rpf, oifs, rfl⟩

/-- Inversion for the NX-OS per-row metric construction: a successful metric
comes from a row whose address text matched the regex, and its tag
dictionary is built by `buildNxTags` from the captures, the FDMR lookup
and the row's fields. -/
theorem make_metric_ok_shape {ts : Nat} {rec : nxapi.NxRow}
    {fdmr : List ((String × String) × String)} {m : Metric}
    (h : nxapi.make_metric ts rec fdmr = Except.ok m) :
    ∃ status addrs s g, rec.mcastAddrs = some addrs ∧
      nxapi.re_extracto_S_G addrs = some (s, g) ∧
      m = { value := status,
            tags := nxapi.buildNxTags s g rec.routeIif (nxapi.dictGet fdmr (s, g))
              rec.oifNames,
            ts := ts } := by
  unfold nxapi.make_metric at h
  cases ha : rec.mcastAddrs with
  | none => simp [ha] at h
  | some addrs =>
    cases hr : nxapi.re_extracto_S_G addrs with
    | none => simp [ha, hr] at h
    | some sg =>
      obtain ⟨s, g⟩ := sg
      cases hst : nxapi.form_sg_status rec (nxapi.dictGet fdmr (s, g)) with
      | error e => simp [ha, hr, hst] at h
      | ok status =>
        simp only [ha, hr, hst] at h
        cases h
        exact ⟨status, addrs, s, g, rfl, hr, rfl⟩

/-- C5: the EOS flow extractor never yields a record with the wildcard
source `0.0.0.0`, and hence no emitted EOS metric carries an `S` tag equal
to `0.0.0.0`. -/
theorem C5_no_wildcard_source :
    (∀ (cli : eapi.EosTree) (r : String × String × eapi.EosFlowData),
      r ∈ eapi.find_mcast_sg_flows cli → r.1 ≠ "0.0.0.0") ∧
    (∀ (ts : Nat) (cli : eapi.EosTree) (ms : List Metric),
      eapi.get_mcast_flow_metrics ts cli = Except.ok ms →
      ∀ m ∈ ms, ("S", some "0.0.0.0") ∉ m.tags) := by
  have h1 : ∀ (cli : eapi.EosTree) (r : String × String × eapi.EosFlowData),
      r ∈ eapi.find_mcast_sg_flows cli → r.1 ≠ "0.0.0.0" := by
    intro cli r hr
    simp only [eapi.find_mcast_sg_flows, List.mem_flatMap] at hr
    obtain ⟨gp, hgp, hr2⟩ := hr
    simp only [List.mem_map] at hr2
    obtain ⟨sp, hsp, hr3⟩ := hr2
    have hne := (List.mem_filter.mp hsp).2
    rw [← hr3]
    simpa using hne
  refine ⟨h1, ?_⟩
  intro ts cli ms h m hm hmem
  obtain ⟨r, hr, hok⟩ := exceptMap_ok_mem h m hm
  obtain ⟨status, flags, rpf, oifs, hshape⟩ := metricOf_ok_shape hok
  have hs := h1 cli r hr
  subst hshape
  simp only [eapi.buildEosTags, List.mem_cons, List.not_mem_nil, or_false] at hmem
  rcases hmem with h' | h' | h' | h' | h' <;> simp at h'
  exact hs h'.symm

/-- Witness for C5: a concrete EOS tree with a wildcard source entry; the
extractor yields the `10.0.0.1` record and its source is not `0.0.0.0`. -/
theorem C5_no_wildcard_source_w :
    (("10.0.0.1", "224.1.1.1", (⟨some "S", some "Eth1", some ["Eth2"]⟩ : eapi.EosFlowData)) ∈
      eapi.find_mcast_sg_flows
        ⟨[("224.1.1.1", ⟨[("10.0.0.1", ⟨some "S", some "Eth1", some ["Eth2"]⟩),
          ("0.0.0.0", ⟨some "W", some "Eth1", some []⟩)]⟩)]⟩) ∧
    ("10.0.0.1", "224.1.1.1", (⟨some "S", some "Eth1", some ["Eth2"]⟩ : eapi.EosFlowData)).1 ≠
      "0.0.0.0" := by
  refine ⟨by decide, ?_⟩
  exact C5_no_wildcard_source.1
    ⟨[("224.1.1.1", ⟨[("10.0.0.1", ⟨some "S", some "Eth1", some ["Eth2"]⟩),
      ("0.0.0.0", ⟨some "W", some "Eth1", some []⟩)]⟩)]⟩
    ("10.0.0.1", "224.1.1.1", ⟨some "S", some "Eth1", some ["Eth2"]⟩) (by decide)

/-- The matcher rejects any input that does not begin with `(`. -/
theorem extractoCore_head_not_paren {l : List Char} (h : l.head? ≠ some '(') :
    nxapi.extractoCore l = none := by
  cases l with
  | nil => rfl
  | cons c cs =>
    have hc : ¬ c = '(' := by simpa using h
    simp [nxapi.extractoCore, hc]

/-- C6 counterexample: the extraction regex captures `.+`, not dotted
quads, so `"(x/1, y/2)"` — not of the dotted-quad form — matches with
S=`"x"`, G=`"y"`, refuting that the pattern matches exactly strings of the
dotted-quad form. -/
theorem C6_regex_cex :
    nxapi.re_extracto_S_G "(x/1, y/2)" = some ("x", "y") := by rfl

/-- C6 amended: the regex maps `"(10.0.0.1/32, 224.1.1.1/32)"` to
S=`"10.0.0.1"`, G=`"224.1.1.1"` and fails on strings missing the opening
parenthesis; but its captures are arbitrary non-empty non-newline text
(not only dotted quads) and, being applied with `re.match`, it accepts
trailing text after the closing parenthesis. -/
theorem C6_regex_amended :
    nxapi.re_extracto_S_G "(10.0.0.1/32, 224.1.1.1/32)" = some ("10.0.0.1", "224.1.1.1") ∧
    nxapi.re_extracto_S_G "10.0.0.1/32, 224.1.1.1/32)" = none ∧
    (∀ s : String, s.data.head? ≠ some '(' → nxapi.re_extracto_S_G s = none) ∧
    nxapi.re_extracto_S_G "(ab/1, cd/2)tail" = some ("ab", "cd") := by
  refine ⟨by rfl, by rfl, ?_, by rfl⟩
  intro s h
  exact extractoCore_head_not_paren h

/-- Witness for the amended C6: a concrete string with no parenthesis at
all fails to match. -/
theorem C6_regex_amended_w :
    nxapi.re_extracto_S_G "no parens here" = none :=
  C6_regex_amended.2.2.1 "no parens here" (by decide)

/-- C7: the FDMR flag parser maps the example block to the mapping
`{(10.0.0.1, 224.1.1.1) ↦ O}` — the RPF-interface field is captured but
discarded — and maps empty and unparseable text to the empty mapping,
returning normally in every case. -/
theorem C7_fdmr_soft_degrade :
    nxapi.parse_show_fdmr "(10.0.0.1/32, 224.1.1.1/32), RPF Interface: Eth1, flags: O" =
      [(("10.0.0.1", "224.1.1.1"), "O")] ∧
    nxapi.parse_show_fdmr "" = [] ∧
    nxapi.parse_show_fdmr "hello this is garbage\nmore garbage lines" = [] :=
  ⟨rfl, rfl, rfl⟩

/-- C8: with zero flows — an EOS tree all of whose groups have an empty
`groupSources` dict, or an NX-OS document with no `ROW_one_route` nodes —
both extractors produce an empty metric list and return normally. -/
theorem C8_zero_flows :
    (∀ (ts : Nat) (cli : eapi.EosTree),
      (∀ gp ∈ cli.groups, gp.2.groupSources = []) →
      eapi.find_mcast_sg_flows cli = [] ∧
        eapi.get_mcast_flow_metrics ts cli = Except.ok []) ∧
    (∀ (ts : Nat) (fdmr : List ((String × String) × String)),
      nxapi.get_mcast_flow_metrics ts [] fdmr = Except.ok []) := by
  constructor
  · intro ts cli h
    have hempty : eapi.find_mcast_sg_flows cli = [] := by
      simp only [eapi.find_mcast_sg_flows, List.flatMap_eq_nil_iff]
      intro gp hgp
      rw [h gp hgp]
      rfl
    refine ⟨hempty, ?_⟩
    unfold eapi.get_mcast_flow_metrics
    rw [hempty]
    rfl
  · intro ts fdmr
    rfl

/-- Witness for C8: a concrete EOS tree with one group and no sources
yields no flows and an empty metric list. -/
theorem C8_zero_flows_w :
    eapi.find_mcast_sg_flows ⟨[("224.1.1.1", ⟨[]⟩)]⟩ = [] ∧
    eapi.get_mcast_flow_metrics 5 ⟨[("224.1.1.1", ⟨[]⟩)]⟩ = Except.ok [] :=
  C8_zero_flows.1 5 ⟨[("224.1.1.1", ⟨[]⟩)]⟩ (by decide)

/-- C9: both metric builders set the `oif_list` tag to the outgoing
interface names joined with `,` — `"Eth1,Eth2"` for two interfaces, `""`
for none — and, given a flow record's attributes and a classifier status,
each per-record metric construction returns a metric (no further
validation beyond string coercion). -/
theorem C9_metric_builder_oif_list :
    (∀ (s g flags rpf : String) (oifs : List String),
      lookupTag "oif_list" (eapi.buildEosTags s g flags rpf oifs) =
        some (some (pyJoin "," oifs))) ∧
    (∀ (s g : String) (rpf : Option String) (flags : String) (oifs : List String),
      lookupTag "oif_list" (nxapi.buildNxTags s g rpf flags oifs) =
        some (some (pyJoin "," oifs))) ∧
    pyJoin "," ["Eth1", "Eth2"] = "Eth1,Eth2" ∧
    pyJoin "," [] = "" ∧
    (∀ (ts status : Nat) (s g flags rpf : String) (oifs : List String),
      eapi.mcast_sg_status ⟨some flags, some rpf, some oifs⟩ = Except.ok status →
      eapi.metricOf ts s g ⟨some flags, some rpf, some oifs⟩ =
        Except.ok { value := status, tags := eapi.buildEosTags s g flags rpf oifs,
                    ts := ts }) ∧
    (∀ (ts status : Nat) (rec : nxapi.NxRow) (fdmr : List ((String × String) × String))
      (addrs s g : String),
      rec.mcastAddrs = some addrs →
      nxapi.re_extracto_S_G addrs = some (s, g) →
      nxapi.form_sg_status rec (nxapi.dictGet fdmr (s, g)) = Except.ok status →
      nxapi.make_metric ts rec fdmr =
        Except.ok { value := status,
                    tags := nxapi.buildNxTags s g rec.routeIif (nxapi.dictGet fdmr (s, g))
                      rec.oifNames,
                    ts := ts }) := by
  refine ⟨?_, ?_, rfl, rfl, ?_, ?_⟩
  · intro s g flags rpf oifs
    rfl
  · intro s g rpf flags oifs
    rfl
  · intro ts status s g flags rpf oifs h
    simp [eapi.metricOf, h]
  · intro ts status rec fdmr addrs s g h1 h2 h3
    simp [nxapi.make_metric, h1, h2, h3]

/-- Witness for C9 at a concrete flow: building the EOS metric for a flow
with flags `S` and two outgoing interfaces succeeds. -/
theorem C9_metric_builder_oif_list_w :
    eapi.mcast_sg_status ⟨some "S", some "Eth1", some ["Eth2", "Eth3"]⟩ = Except.ok 0 ∧
    eapi.metricOf 9 "10.0.0.1" "224.1.1.1" ⟨some "S", some "Eth1", some ["Eth2", "Eth3"]⟩ =
      Except.ok { value := 0,
                  tags := eapi.buildEosTags "10.0.0.1" "224.1.1.1" "S" "Eth1" ["Eth2", "Eth3"],
                  ts := 9 } :=
  ⟨rfl, C9_metric_builder_oif_list.2.2.2.2.1 9 0 "10.0.0.1" "224.1.1.1" "S" "Eth1"
    ["Eth2", "Eth3"] rfl⟩

/-- C10: every successfully built NX-OS metric carries exactly the tags
S, G, rpf_if_name, flags, oif_count, oif_list — with `oif_count` the
decimal string of the outgoing-interface count and `flags` the FDMR
lookup result defaulting to `""` — while every emitted EOS metric carries
exactly the tags S, G, flags, rpf_if_name, oif_list and no `oif_count`
tag. -/
theorem C10_vendor_tag_sets :
    (∀ (ts : Nat) (rec : nxapi.NxRow) (fdmr : List ((String × String) × String)) (m : Metric),
      nxapi.make_metric ts rec fdmr = Except.ok m →
      m.tags.map Prod.fst = ["S", "G", "rpf_if_name", "flags", "oif_count", "oif_list"] ∧
      lookupTag "oif_count" m.tags = some (some (toString rec.oifNames.length)) ∧
      ∃ s g, lookupTag "S" m.tags = some (some s) ∧ lookupTag "G" m.tags = some (some g) ∧
        lookupTag "flags" m.tags = some (some (nxapi.dictGet fdmr (s, g)))) ∧
    (∀ (ts : Nat) (cli : eapi.EosTree) (ms : List Metric),
      eapi.get_mcast_flow_metrics ts cli = Except.ok ms → ∀ m ∈ ms,
      m.tags.map Prod.fst = ["S", "G", "flags", "rpf_if_name", "oif_list"] ∧
      lookupTag "oif_count" m.tags = none) := by
  constructor
  · intro ts rec fdmr m h
    obtain ⟨status, addrs, s, g, ha, hr, hshape⟩ := make_metric_ok_shape h
    subst hshape
    exact ⟨rfl, rfl, s, g, rfl, rfl, rfl⟩
  · intro ts cli ms h m hm
    obtain ⟨r, hrmem, hok⟩ := exceptMap_ok_mem h m hm
    obtain ⟨status, flags, rpf, oifs, hshape⟩ := metricOf_ok_shape hok
    subst hshape
    exact ⟨rfl, rfl⟩

/-- Witness for C10 at a concrete NX-OS row: the built metric exists and
its tag keys are exactly the six NX-OS tags. -/
theorem C10_vendor_tag_sets_w :
    nxapi.make_metric 7
        ⟨none, some "0.000 pps", some "(10.0.0.1/32, 224.1.1.1/32)", some "Eth9",
          ["Eth1", "Eth2"]⟩ [] =
      Except.ok
        { value := 1,
          tags := [("S", some "10.0.0.1"), ("G", some "224.1.1.1"),
                   ("rpf_if_name", some "Eth9"), ("flags", some ""), ("oif_count", some "2"),
                   ("oif_list", some "Eth1,Eth2")],
          ts := 7 } ∧
    [("S", (some "10.0.0.1" : Option String)), ("G", some "224.1.1.1"),
      ("rpf_if_name", some "Eth9"), ("flags", some ""), ("oif_count", some "2"),
      ("oif_list", some "Eth1,Eth2")].map Prod.fst =
      ["S", "G", "rpf_if_name", "flags", "oif_count", "oif_list"] := by
  constructor
  · rfl
  · exact (C10_vendor_tag_sets.1 7
      ⟨none, some "0.000 pps", some "(10.0.0.1/32, 224.1.1.1/32)", some "Eth9",
        ["Eth1", "Eth2"]⟩ []
      { value := 1,
        tags := [("S", some "10.0.0.1"), ("G", some "224.1.1.1"),
          ("rpf_if_name", some "Eth9"), ("flags", some ""), ("oif_count", some "2"),
          ("oif_list", some "Eth1,Eth2")],
        ts := 7 } (by rfl)).1
